import Mathlib

/-!
Verification of the conversation-history hooks and rendering components of a
chat web UI (a React frontend for a conversational assistant).

The embedding models:
* `useHistoryLoader.ts`: the type guard `isTimestampedSDKMessage`, the state
  transitions of `loadHistory` (hook `useHistoryLoader`), `fetchAndConvert` and
  `clearHistory` (hook `useAutoHistoryLoader`), and the polling effect.
* The `ChatMessages` component's `renderMessage` dispatch and the
  `MarkdownRenderer`'s `isValidUrl` link filter.

JSON values returned by `response.json()` are modelled by the inductive
`JSValue`.  The browser primitives (`fetch`, `new URL`, `setInterval`) and the
message converter from `useMessageConverter` (a module not among the provided
sources) are treated as parameters of the transition functions: a fetch's
outcome is passed in explicitly, URL resolution is an explicit
`String → Option String` function giving the resolved protocol, and the
converter is an arbitrary function `List JSValue → List α`.  Console output is
modelled by an explicit list of `LogEvent`s returned next to the new state.
-/

/-- A JSON value, as produced by `response.json()`. -/
inductive JSValue : Type where
  | null : JSValue
  | bool : Bool → JSValue
  | num : Int → JSValue
  | str : String → JSValue
  | arr : List JSValue → JSValue
  | obj : List (String × JSValue) → JSValue

/-- JavaScript `typeof` restricted to JSON values: `null` and arrays are
`"object"`. -/
def jsTypeof : JSValue → String
  | JSValue.null => "object"
  | JSValue.bool _ => "boolean"
  | JSValue.num _ => "number"
  | JSValue.str _ => "string"
  | JSValue.arr _ => "object"
  | JSValue.obj _ => "object"

/-- Whether the value is JavaScript `null`. -/
def isNull : JSValue → Bool
  | JSValue.null => true
  | _ => false

/-- Property lookup on a JSON value.  Only objects carry the (non-index)
properties queried by this code (`"type"`, `"timestamp"`, `"messages"`,
`"sessionId"`), so lookup on any other value yields `none` (JS `undefined`). -/
def lookupField : JSValue → String → Option JSValue
  | JSValue.obj fields, k => (fields.find? (fun f => f.1 = k)).map (fun f => f.2)
  | _, _ => none

/-- JavaScript `key in value` for the property names queried here. -/
def hasField (v : JSValue) (k : String) : Bool :=
  (lookupField v k).isSome

/-- Type guard from `useHistoryLoader.ts` lines 23-33:
`typeof message === "object" && message !== null && "type" in message &&
"timestamp" in message && typeof message.timestamp === "string"`. -/
def isTimestampedSDKMessage (message : JSValue) : Bool :=
  jsTypeof message = "object" &&
  !isNull message &&
  hasField message ("type") &&
  hasField message ("timestamp") &&
  jsTypeof ((lookupField message ("timestamp")).getD JSValue.null) = "string"

/-- State of either history-loader hook (`HistoryLoaderState`): `messages` is
the converted message list (`AllMessage[]`), `error : Option String` models
`string | null`, `sessionId : Option JSValue` models the `sessionId` field
(`none` is the initial `null`). `α` is the converter's output type. -/
structure HistoryLoaderState (α : Type) where
  messages : List α
  loading : Bool
  error : Option String
  sessionId : Option JSValue

/-- The initial hook state: `{ messages: [], loading: false, error: null,
sessionId: null }`. -/
def initialState (α : Type) : HistoryLoaderState α :=
  { messages := [], loading := false, error := none, sessionId := none }

/-- A value thrown in JS: either an `Error` instance with a message, or any
other thrown value. -/
inductive JsError : Type where
  | error : String → JsError
  | other : JsError

/-- `error instanceof Error ? error.message : "Failed to load conversation
history"` — the string stored by both catch blocks. -/
def errorText : JsError → String
  | JsError.error m => m
  | JsError.other => "Failed to load conversation history"

/-- Outcome of one `fetch` call, supplied by the environment: either the
promise rejected, or a response arrived with its `ok` flag, status, status
text, and the result of `response.json()` (which may itself throw). -/
inductive FetchResult : Type where
  | rejected : JsError → FetchResult
  | response : Bool → Nat → String → Except JsError JSValue → FetchResult

/-- One console call made by the hooks. -/
inductive LogEvent : Type where
  /-- `console.warn("Skipping invalid message in history:", msg)` -/
  | warnSkipped : JSValue → LogEvent
  /-- `console.error("Error loading conversation history:", error)` -/
  | errorLoading : LogEvent
  /-- `console.log("[Polling] Detected n new message(s), updating...")` -/
  | pollingDetected : Nat → LogEvent

/-- The `TypeError` thrown by the property access
`conversationHistory.messages` when the parsed body is JSON `null`
(V8 wording); `TypeError` is an `Error` instance, so its message is what the
catch blocks store. -/
def nullAccessError : JsError :=
  JsError.error ("Cannot read properties of null (reading 'messages')")

/-- Validation of the response body, lines 78-83 / 182-190:
the property access `conversationHistory.messages` THROWS a `TypeError` when
the body is JSON `null` (`Except.error`); on any other body,
`!conversationHistory.messages || !Array.isArray(conversationHistory.messages)`
fails exactly when the `messages` field is not an array (`Except.ok none`) —
on a primitive body the access yields `undefined`, which is falsy, and every
JSON array, including `[]`, is truthy and passes `Array.isArray`
(`Except.ok (some msgs)`). -/
def validMessages (body : JSValue) : Except JsError (Option (List JSValue)) :=
  match body with
  | JSValue.null => Except.error nullAccessError
  | _ =>
    match lookupField body ("messages") with
    | some (JSValue.arr msgs) => Except.ok (some msgs)
    | _ => Except.ok none

/-- The conversion loop of `loadHistory` (lines 86-93): valid messages are
pushed in order, each invalid message is dropped with a warning. -/
def convertLoopWithWarn : List JSValue → List JSValue × List LogEvent
  | [] => ([], [])
  | m :: rest =>
    let tail := convertLoopWithWarn rest
    if isTimestampedSDKMessage m then (m :: tail.1, tail.2)
    else (tail.1, LogEvent.warnSkipped m :: tail.2)

/-- Set `loading := false` and store the thrown error's text — the catch
blocks at lines 105-116 and 223-233. -/
def catchFail (α : Type) (s : HistoryLoaderState α) (e : JsError) :
    HistoryLoaderState α :=
  { s with loading := false, error := some (errorText e) }

/-- The error message thrown for a non-ok response. -/
def failedToLoadMsg (status : Nat) (statusText : String) : String :=
  s!"Failed to load conversation: {status} {statusText}"

/-- `loadHistory` of the `useHistoryLoader` hook (lines 48-119) as a state
transition.  `convert` is `convertConversationHistory` from
`useMessageConverter`; `outcome` is what the single `fetch` call would
produce.  Returns the state after the call settles together with the console
events emitted.  When the guard at line 50 fires, no fetch is performed, so
the result does not depend on `outcome`. -/
def loadHistory (α : Type) (convert : List JSValue → List α)
    (encodedProjectName sessionId : String) (outcome : FetchResult)
    (prev : HistoryLoaderState α) : HistoryLoaderState α × List LogEvent :=
  if encodedProjectName = "" || sessionId = "" then
    ({ prev with error := some ("Encoded project name and session ID are required") }, [])
  else
    let started : HistoryLoaderState α := { prev with loading := true, error := none }
    match outcome with
    | FetchResult.rejected e => (catchFail α started e, [LogEvent.errorLoading])
    | FetchResult.response ok status statusText body =>
      if !ok then
        (catchFail α started (JsError.error (failedToLoadMsg status statusText)),
         [LogEvent.errorLoading])
      else
        match body with
        | Except.error e => (catchFail α started e, [LogEvent.errorLoading])
        | Except.ok b =>
          match validMessages b with
          | Except.error e => (catchFail α started e, [LogEvent.errorLoading])
          | Except.ok none =>
            (catchFail α started (JsError.error ("Invalid conversation history format")),
             [LogEvent.errorLoading])
          | Except.ok (some msgs) =>
            let conv := convertLoopWithWarn msgs
            ({ started with
                messages := convert conv.1
                loading := false
                sessionId := lookupField b ("sessionId") },
             conv.2)

/-- `clearHistory` of `useHistoryLoader` (lines 121-128): reset to the initial
state. -/
def clearHistory (α : Type) (_s : HistoryLoaderState α) : HistoryLoaderState α :=
  { messages := [], loading := false, error := none, sessionId := none }

/-- State of the `useAutoHistoryLoader` hook: the `HistoryLoaderState` plus
`lastMessageCountRef.current`. -/
structure AutoState (α : Type) where
  state : HistoryLoaderState α
  lastMessageCount : Nat

/-- The initial `useAutoHistoryLoader` state. -/
def initialAutoState (α : Type) : AutoState α :=
  { state := initialState α, lastMessageCount := 0 }

/-- JavaScript truthiness of an optional string (`string | undefined`):
falsy exactly for `undefined` and `""`. -/
def truthy : Option String → Bool
  | none => false
  | some s => s ≠ ""

/-- `fetchAndConvert` of `useAutoHistoryLoader` (lines 158-236) as a state
transition.  The guard at line 160 returns before any fetch; when
`isPolling`, a non-ok response (line 172) and an invalid body (line 186)
return early leaving the state intact, and a successful body whose message
count does not exceed `lastMessageCountRef.current` also returns early (line
195).  The catch block (lines 223-233) does NOT test `isPolling`: a rejected
fetch, a throwing `response.json()`, or the `TypeError` from accessing
`.messages` on a JSON-`null` body stores the error even during polling.
The conversion loop here (lines 206-211) drops invalid messages silently. -/
def fetchAndConvert (α : Type) (convert : List JSValue → List α)
    (encodedProjectName sessionId : Option String) (isPolling : Bool)
    (outcome : FetchResult) (prev : AutoState α) : AutoState α × List LogEvent :=
  if !truthy encodedProjectName || !truthy sessionId then (prev, [])
  else
    let s0 : HistoryLoaderState α :=
      if isPolling then prev.state
      else { prev.state with loading := true, error := none }
    match outcome with
    | FetchResult.rejected e =>
      ({ prev with state := catchFail α s0 e }, [LogEvent.errorLoading])
    | FetchResult.response ok status statusText body =>
      if !ok then
        if isPolling then ({ prev with state := s0 }, [])
        else
          ({ prev with
              state := catchFail α s0 (JsError.error (failedToLoadMsg status statusText)) },
           [LogEvent.errorLoading])
      else
        match body with
        | Except.error e =>
          ({ prev with state := catchFail α s0 e }, [LogEvent.errorLoading])
        | Except.ok b =>
          match validMessages b with
          | Except.error e =>
            ({ prev with state := catchFail α s0 e }, [LogEvent.errorLoading])
          | Except.ok none =>
            if isPolling then ({ prev with state := s0 }, [])
            else
              ({ prev with
                  state := catchFail α s0 (JsError.error ("Invalid conversation history format")) },
               [LogEvent.errorLoading])
          | Except.ok (some msgs) =>
            let newMessageCount := msgs.length
            if isPolling && newMessageCount ≤ prev.lastMessageCount then
              ({ prev with state := s0 }, [])
            else
              let log : List LogEvent :=
                if isPolling then
                  [LogEvent.pollingDetected (newMessageCount - prev.lastMessageCount)]
                else []
              let timestamped := msgs.filter isTimestampedSDKMessage
              ({ state :=
                  { s0 with
                      messages := convert timestamped
                      loading := false
                      sessionId := lookupField b ("sessionId") }
                 lastMessageCount := newMessageCount },
               log)

/-- `clearHistory` of `useAutoHistoryLoader` (lines 276-284): reset the state
and `lastMessageCountRef.current`. -/
def clearHistoryAuto (α : Type) (_s : AutoState α) : AutoState α :=
  { state := { messages := [], loading := false, error := none, sessionId := none }
    lastMessageCount := 0 }

/-- The message list of a successfully fetched, structurally valid
conversation: the response was ok, `response.json()` returned, and the body's
`messages` field is an array. -/
def fetchedMessages : FetchResult → Option (List JSValue)
  | FetchResult.response true _ _ (Except.ok b) =>
    match validMessages b with
    | Except.ok (some msgs) => some msgs
    | _ => none
  | _ => none

/-- `POLLING_INTERVAL` (line 8): polling interval in milliseconds. -/
def POLLING_INTERVAL : Nat := 3000

/-- The polling effect of `useAutoHistoryLoader` (lines 254-274) as a function
from the effect's inputs and the previously installed timer to the timer
installed afterwards (`some period`, or `none` when no timer remains).  The
body first clears any existing timer (lines 255-258), returns early unless
polling is enabled and both identifiers are truthy (lines 260-262), and
otherwise installs a single interval timer with period `POLLING_INTERVAL`
(lines 264-266). -/
def pollingEffect (_prevTimer : Option Nat) (enablePolling : Bool)
    (encodedProjectName sessionId : Option String) : Option Nat :=
  if !enablePolling || !truthy encodedProjectName || !truthy sessionId then none
  else some POLLING_INTERVAL

/-- The effect's cleanup function (lines 268-273): clears the timer. -/
def pollingCleanup (_timer : Option Nat) : Option Nat := none

/-- An event on the timeline of an installed polling timer: either the
interval fires (a tick) or the response of some outstanding polling fetch
settles. -/
inductive PollEvent : Type where
  | tick : PollEvent
  | complete : PollEvent

/-- Effect of one event on the number of outstanding polling fetches.  The
interval callback (lines 264-266) is `() => { fetchAndConvert(true); }`: it
starts a fetch unconditionally — neither the callback nor `fetchAndConvert`
consults any in-flight flag — so every tick adds one outstanding fetch. -/
def pollStep (outstanding : Nat) : PollEvent → Nat
  | PollEvent.tick => outstanding + 1
  | PollEvent.complete => outstanding - 1

/-- Number of polling fetches outstanding after a timeline of events, starting
from none. -/
def outstandingFetches (timeline : List PollEvent) : Nat :=
  timeline.foldl pollStep 0

/-- The spec's words for claim C3: at every point in time at most one fetch
issued by the polling timer is outstanding. -/
def atMostOneInFlight : Prop :=
  ∀ timeline : List PollEvent, outstandingFetches timeline ≤ 1

/-- `isValidUrl` from the `MarkdownRenderer` (part_000 lines 186-197).
`parseProtocol` models the browser URL constructor
`new URL(href, window.location.origin)`: it yields the resolved URL's
protocol, or `none` when the constructor throws.  `!href` is true exactly for
`undefined` and the empty string. -/
def isValidUrl (parseProtocol : String → Option String)
    (href : Option String) : Bool :=
  match href with
  | none => false
  | some h =>
    if h = "" then false
    else
      match parseProtocol h with
      | some protocol => ["http:", "https:", "mailto:"].contains protocol
      | none => h.startsWith ("/") || h.startsWith ("#")

/-- Result of rendering one markdown link. -/
inductive LinkRendering : Type where
  | anchor : String → LinkRendering
  | plainText : LinkRendering

/-- The `a` component of the `MarkdownRenderer` (part_000 lines 253-269):
an invalid href renders as a plain-text span, a valid one as an anchor with
that href. -/
def renderLink (parseProtocol : String → Option String)
    (href : Option String) : LinkRendering :=
  if isValidUrl parseProtocol href then LinkRendering.anchor (href.getD "")
  else LinkRendering.plainText

/-- Modelled from the spec: the message type `AllMessage` and its kind guards
are imported from `frontend/src/types`, which is not among the provided
sources.  The spec describes messages as "a discriminated union of message
kinds", so a message carries a kind tag (an arbitrary string, so that
messages outside the union are representable), a timestamp, and content. -/
structure AllMessage : Type where
  kind : String
  timestamp : String
  content : String

/-- Modelled from the spec: guard for chat messages. -/
def isChatMessage (m : AllMessage) : Bool := m.kind = "chat"

/-- Modelled from the spec: guard for system messages. -/
def isSystemMessage (m : AllMessage) : Bool := m.kind = "system"

/-- Modelled from the spec: guard for tool messages. -/
def isToolMessage (m : AllMessage) : Bool := m.kind = "tool"

/-- Modelled from the spec: guard for tool-result messages. -/
def isToolResultMessage (m : AllMessage) : Bool := m.kind = "tool_result"

/-- Modelled from the spec: guard for plan messages. -/
def isPlanMessage (m : AllMessage) : Bool := m.kind = "plan"

/-- Modelled from the spec: guard for thinking messages. -/
def isThinkingMessage (m : AllMessage) : Bool := m.kind = "thinking"

/-- Modelled from the spec: guard for todo messages. -/
def isTodoMessage (m : AllMessage) : Bool := m.kind = "todo"

/-- A rendered message component, tagged by which component was chosen, with
the React key and the message passed as props. -/
inductive RenderedComponent : Type where
  | systemComp : String → AllMessage → RenderedComponent
  | toolComp : String → AllMessage → RenderedComponent
  | toolResultComp : String → AllMessage → RenderedComponent
  | planComp : String → AllMessage → RenderedComponent
  | thinkingComp : String → AllMessage → RenderedComponent
  | todoComp : String → AllMessage → RenderedComponent
  | chatComp : String → AllMessage → RenderedComponent

/-- The React key computed at part_000 line 117. -/
def renderKey (message : AllMessage) (index : Nat) : String :=
  let t := message.timestamp
  s!"{t}-{index}"

/-- `renderMessage` from the `ChatMessages` component (part_000 lines
115-135): guards are tested in the source order, the first satisfied one
selects the component, and `none` models the trailing `return null`. -/
def renderMessage (message : AllMessage) (index : Nat) :
    Option RenderedComponent :=
  let key := renderKey message index
  if isSystemMessage message then some (RenderedComponent.systemComp key message)
  else if isToolMessage message then some (RenderedComponent.toolComp key message)
  else if isToolResultMessage message then some (RenderedComponent.toolResultComp key message)
  else if isPlanMessage message then some (RenderedComponent.planComp key message)
  else if isThinkingMessage message then some (RenderedComponent.thinkingComp key message)
  else if isTodoMessage message then some (RenderedComponent.todoComp key message)
  else if isChatMessage message then some (RenderedComponent.chatComp key message)
  else none

/-- The component of the first entry whose guard accepts the message, `none`
when no guard does. -/
def firstSatisfied :
    List ((AllMessage → Bool) × (String → AllMessage → RenderedComponent)) →
    AllMessage → String → Option RenderedComponent
  | [], _, _ => none
  | g :: rest, m, key =>
    if g.1 m then some (g.2 key m) else firstSatisfied rest m key

/-- The guard table in the fixed order the spec states: system, tool,
tool-result, plan, thinking, todo, chat; each guard is paired with the
component it selects. -/
def guardTable :
    List ((AllMessage → Bool) × (String → AllMessage → RenderedComponent)) :=
  [(isSystemMessage, RenderedComponent.systemComp),
   (isToolMessage, RenderedComponent.toolComp),
   (isToolResultMessage, RenderedComponent.toolResultComp),
   (isPlanMessage, RenderedComponent.planComp),
   (isThinkingMessage, RenderedComponent.thinkingComp),
   (isTodoMessage, RenderedComponent.todoComp),
   (isChatMessage, RenderedComponent.chatComp)]

/-- Spec-side description of the dispatch: the component of the FIRST
satisfied guard of `guardTable`, `none` when no guard is satisfied. -/
def renderMessageSpec (message : AllMessage) (index : Nat) :
    Option RenderedComponent :=
  firstSatisfied guardTable message (renderKey message index)

theorem foldl_pollStep_replicate (k n : Nat) :
    List.foldl pollStep n (List.replicate k PollEvent.tick) = n + k := by
  induction k generalizing n with
  | zero => simp [List.replicate]
  | succ k ih =>
    simp only [List.replicate, List.foldl_cons, pollStep]
    rw [ih]
    omega

/-- C3 counterexample: after two consecutive interval ticks with no
intervening completion — a possible timeline whenever a response takes longer
than the 3000 ms period — two polling fetches are outstanding, so the polling
loop does not have at-most-one-in-flight-fetch semantics. -/
theorem polling_not_atMostOneInFlight :
    outstandingFetches [PollEvent.tick, PollEvent.tick] = 2 ∧ ¬ atMostOneInFlight :=
  ⟨rfl, fun hyp => absurd (hyp [PollEvent.tick, PollEvent.tick]) (by decide)⟩

/-- C3 (amended): the interval callback starts a polling fetch
unconditionally — each tick adds one outstanding fetch whatever the current
timeline is, and after `k` consecutive ticks with no completions exactly `k`
polling fetches are outstanding; nothing in the loop bounds this number. -/
theorem polling_ticks_accumulate (k : Nat) :
    outstandingFetches (List.replicate k PollEvent.tick) = k ∧
    ∀ timeline : List PollEvent,
      outstandingFetches (timeline ++ [PollEvent.tick]) =
        outstandingFetches timeline + 1 := by
  constructor
  · simpa using foldl_pollStep_replicate k 0
  · intro timeline
    simp [outstandingFetches, List.foldl_append, pollStep]

/-- C5: the link filter returns false for an undefined or empty href; for a
nonempty href it returns true exactly when the resolved protocol is one of
`http:`, `https:`, `mailto:` (so `javascript:` and `data:` protocols are
rejected), and when URL resolution throws it returns true exactly when the
href starts with `/` or `#`; a rejected href renders as plain text. -/
theorem isValidUrl_protocol_filter (parseProtocol : String → Option String)
    (h p : String) (href : Option String) (hne : h ≠ "") :
    isValidUrl parseProtocol none = false ∧
    isValidUrl parseProtocol (some ("")) = false ∧
    (parseProtocol h = some p →
      isValidUrl parseProtocol (some h) = ["http:", "https:", "mailto:"].contains p) ∧
    (parseProtocol h = none →
      isValidUrl parseProtocol (some h) = (h.startsWith ("/") || h.startsWith ("#"))) ∧
    (isValidUrl parseProtocol href = false →
      renderLink parseProtocol href = LinkRendering.plainText) := by
  refine ⟨rfl, rfl, ?_, ?_, ?_⟩
  · intro hp
    simp [isValidUrl, hne, hp]
  · intro hp
    simp [isValidUrl, hne, hp]
  · intro hv
    simp [renderLink, hv]

/-- An example of the URL resolver rejecting a dangerous protocol. -/
def jsParseEx : String → Option String :=
  fun h => if h = "javascript:alert(1)" then some ("javascript:") else none

theorem isValidUrl_protocol_filter_witness :
    ("javascript:alert(1)" : String) ≠ "" ∧
    jsParseEx ("javascript:alert(1)") = some ("javascript:") ∧
    isValidUrl jsParseEx (some ("javascript:alert(1)")) = false := by
  refine ⟨by decide, rfl, ?_⟩
  have hmain :=
    (isValidUrl_protocol_filter jsParseEx ("javascript:alert(1)") ("javascript:")
      none (by decide)).2.2.1 rfl
  simpa using hmain

/-- C7: the `renderMessage` dispatch equals the spec-side description — the
component of the first satisfied type guard, tested in the fixed order
system, tool, tool-result, plan, thinking, todo, chat, and `none` when no
guard is satisfied; being a function of the message and index only, its
output depends on nothing else. -/
theorem renderMessage_eq_first_satisfied_guard (m : AllMessage) (i : Nat) :
    renderMessage m i = renderMessageSpec m i := rfl

/-- C8: `POLLING_INTERVAL` is 3000 ms; the polling effect installs a single
interval timer of period 3000 exactly when polling is enabled and both
identifiers are truthy, installs none when polling is disabled or an
identifier is absent or empty, and the effect's cleanup clears the timer. -/
theorem pollingEffect_interval_3000 (prevTimer extraTimer : Option Nat)
    (name sid : Option String)
    (hn : truthy name = true) (hs : truthy sid = true) :
    POLLING_INTERVAL = 3000 ∧
    pollingEffect prevTimer true name sid = some 3000 ∧
    (∀ t n s, pollingEffect t false n s = none) ∧
    (∀ t e s, pollingEffect t e none s = none) ∧
    (∀ t e n, pollingEffect t e n none = none) ∧
    (∀ t e s, pollingEffect t e (some ("")) s = none) ∧
    (∀ t e n, pollingEffect t e n (some ("")) = none) ∧
    pollingCleanup extraTimer = none := by
  refine ⟨rfl, ?_, ?_, ?_, ?_, ?_, ?_, rfl⟩
  · simp [pollingEffect, hn, hs, POLLING_INTERVAL]
  · intro t n s; simp [pollingEffect]
  · intro t e s; simp [pollingEffect, truthy]
  · intro t e n; simp [pollingEffect, truthy]
  · intro t e s; simp [pollingEffect, truthy]
  · intro t e n; simp [pollingEffect, truthy]

theorem pollingEffect_interval_3000_witness :
    truthy (some ("p")) = true ∧ truthy (some ("s")) = true ∧
    pollingEffect none true (some ("p")) (some ("s")) = some 3000 :=
  ⟨by decide, by decide,
    (pollingEffect_interval_3000 none none (some ("p")) (some ("s"))
      (by decide) (by decide)).2.1⟩

/-- C9: when the encoded project name or the session id is empty,
`loadHistory` only stores the error string "Encoded project name and session
ID are required" (messages, sessionId and loading are untouched by the record
update) and performs no fetch — the result does not depend on the fetch
outcome. -/
theorem loadHistory_missing_ids (α : Type) (convert : List JSValue → List α)
    (name sid : String) (outcome outcome2 : FetchResult)
    (prev : HistoryLoaderState α) (hmiss : name = "" ∨ sid = "") :
    loadHistory α convert name sid outcome prev =
      ({ prev with error := some ("Encoded project name and session ID are required") }, []) ∧
    loadHistory α convert name sid outcome prev =
      loadHistory α convert name sid outcome2 prev := by
  rcases hmiss with hmiss | hmiss <;> subst hmiss <;> simp [loadHistory]

theorem loadHistory_missing_ids_witness :
    (("" : String) = "" ∨ ("s" : String) = "") ∧
    loadHistory JSValue (fun l => l) "" ("s") (FetchResult.rejected JsError.other)
        (initialState JSValue) =
      ({ initialState JSValue with
          error := some ("Encoded project name and session ID are required") }, []) :=
  ⟨Or.inl rfl,
    (loadHistory_missing_ids JSValue (fun l => l) "" ("s")
      (FetchResult.rejected JsError.other) (FetchResult.rejected JsError.other)
      (initialState JSValue) (Or.inl rfl)).1⟩

/-- C10: both `clearHistory` callbacks reset the hook state to the initial
state (and `useAutoHistoryLoader`'s also resets the recorded last message
count to 0) regardless of the prior state, and both are idempotent. -/
theorem clearHistory_resets_and_idempotent (α : Type) (s : HistoryLoaderState α)
    (t : AutoState α) :
    clearHistory α s = initialState α ∧
    clearHistoryAuto α t = initialAutoState α ∧
    clearHistory α (clearHistory α s) = clearHistory α s ∧
    clearHistoryAuto α (clearHistoryAuto α t) = clearHistoryAuto α t :=
  ⟨rfl, rfl, rfl, rfl⟩

theorem convertLoopWithWarn_fst (msgs : List JSValue) :
    (convertLoopWithWarn msgs).1 = msgs.filter isTimestampedSDKMessage := by
  induction msgs with
  | nil => rfl
  | cons m rest ih =>
    by_cases hm : isTimestampedSDKMessage m <;>
      simp [convertLoopWithWarn, List.filter_cons, hm, ih]

theorem convertLoopWithWarn_snd (msgs : List JSValue) :
    (convertLoopWithWarn msgs).2 =
      (msgs.filter (fun m => !isTimestampedSDKMessage m)).map LogEvent.warnSkipped := by
  induction msgs with
  | nil => rfl
  | cons m rest ih =>
    by_cases hm : isTimestampedSDKMessage m <;>
      simp [convertLoopWithWarn, List.filter_cons, hm, ih]

/-- C6: on an initial load with nonempty identifiers, a failing fetch ends
with `loading = false` and `error` set to a non-null string describing the
failure, with messages and sessionId untouched: a non-ok response stores the
status string, a body whose `messages` field is not an array stores
"Invalid conversation history format", and a JSON-`null` body stores the
message of the `TypeError` thrown by the `.messages` access; a successful
load ends with `error = none`. -/
theorem loadHistory_initial_error_surfacing (α : Type)
    (convert : List JSValue → List α) (name sid : String) (status : Nat)
    (statusText : String) (body : Except JsError JSValue) (b : JSValue)
    (msgs : List JSValue) (prev : HistoryLoaderState α)
    (hn : name ≠ "") (hs : sid ≠ "") :
    loadHistory α convert name sid
        (FetchResult.response false status statusText body) prev =
      ({ prev with
          loading := false,
          error := some (failedToLoadMsg status statusText) },
       [LogEvent.errorLoading]) ∧
    (validMessages b = Except.ok none →
      loadHistory α convert name sid
          (FetchResult.response true status statusText (Except.ok b)) prev =
        ({ prev with
            loading := false,
            error := some ("Invalid conversation history format") },
         [LogEvent.errorLoading])) ∧
    (validMessages b = Except.ok (some msgs) →
      (loadHistory α convert name sid
          (FetchResult.response true status statusText (Except.ok b)) prev).1.error =
        none) ∧
    loadHistory α convert name sid
        (FetchResult.response true status statusText (Except.ok JSValue.null)) prev =
      ({ prev with
          loading := false,
          error := some (errorText nullAccessError) },
       [LogEvent.errorLoading]) := by
  refine ⟨?_, ?_, ?_, ?_⟩
  · simp [loadHistory, hn, hs, catchFail, errorText]
  · intro hv
    simp [loadHistory, hn, hs, hv, catchFail, errorText]
  · intro hv
    simp [loadHistory, hn, hs, hv]
  · simp [loadHistory, hn, hs, validMessages, catchFail, errorText]

/-- A structurally valid single-message body. -/
def validMsgEx : JSValue :=
  JSValue.obj [("type", JSValue.str ("assistant")),
               ("timestamp", JSValue.str ("2026-01-01T00:00:00Z"))]

/-- A message failing the type guard. -/
def invalidMsgEx : JSValue := JSValue.num 5

/-- A valid body whose single message passes the guard. -/
def bodyOneMsgEx : JSValue :=
  JSValue.obj [("sessionId", JSValue.str ("s1")),
               ("messages", JSValue.arr [validMsgEx])]

/-- A valid body whose single message fails the guard. -/
def bodyInvalidEx : JSValue :=
  JSValue.obj [("sessionId", JSValue.str ("s1")),
               ("messages", JSValue.arr [invalidMsgEx])]

theorem loadHistory_initial_error_surfacing_witness :
    (("p" : String) ≠ "") ∧ (("s" : String) ≠ "") ∧
    validMessages bodyOneMsgEx = Except.ok (some [validMsgEx]) ∧
    (loadHistory JSValue (fun l => l) ("p") ("s")
        (FetchResult.response true 200 ("OK") (Except.ok bodyOneMsgEx))
        (initialState JSValue)).1.error = none :=
  ⟨by decide, by decide, rfl,
    (loadHistory_initial_error_surfacing JSValue (fun l => l) ("p") ("s") 200
      ("OK") (Except.ok bodyOneMsgEx) bodyOneMsgEx [validMsgEx]
      (initialState JSValue) (by decide) (by decide)).2.2.1 rfl⟩

/-- C2 counterexample: a polling fetch whose `fetch` promise rejects reaches
the catch block, which does not test `isPolling` — starting from the initial
state (error `none`), the polling fetch stores `error = some "network down"`,
so a polling failure is not always swallowed. -/
theorem polling_rejected_fetch_sets_error :
    (initialAutoState JSValue).state.error = none ∧
    (fetchAndConvert JSValue (fun l => l) (some ("p")) (some ("s")) true
        (FetchResult.rejected (JsError.error ("network down")))
        (initialAutoState JSValue)).1.state.error = some ("network down") :=
  ⟨rfl, rfl⟩

/-- C2 (amended): during a polling fetch, a non-ok HTTP response and a
non-null body whose `messages` field is not an array are swallowed, leaving
the whole prior state intact and logging nothing; but a rejected fetch
promise, a throwing `response.json()`, and the `TypeError` thrown by the
`.messages` access on a JSON-`null` body all reach the catch block, which
does not test `isPolling` and sets `loading := false` and stores the error's
message even when polling. -/
theorem fetchAndConvert_polling_failure_modes (α : Type)
    (convert : List JSValue → List α) (name sid : Option String)
    (status : Nat) (statusText : String) (body : Except JsError JSValue)
    (b : JSValue) (e : JsError) (prev : AutoState α)
    (hn : truthy name = true) (hs : truthy sid = true) :
    fetchAndConvert α convert name sid true
        (FetchResult.response false status statusText body) prev = (prev, []) ∧
    (validMessages b = Except.ok none →
      fetchAndConvert α convert name sid true
          (FetchResult.response true status statusText (Except.ok b)) prev =
        (prev, [])) ∧
    fetchAndConvert α convert name sid true (FetchResult.rejected e) prev =
      ({ prev with
          state := { prev.state with
                      loading := false, error := some (errorText e) } },
       [LogEvent.errorLoading]) ∧
    fetchAndConvert α convert name sid true
        (FetchResult.response true status statusText (Except.error e)) prev =
      ({ prev with
          state := { prev.state with
                      loading := false, error := some (errorText e) } },
       [LogEvent.errorLoading]) ∧
    fetchAndConvert α convert name sid true
        (FetchResult.response true status statusText (Except.ok JSValue.null)) prev =
      ({ prev with
          state := { prev.state with
                      loading := false,
                      error := some (errorText nullAccessError) } },
       [LogEvent.errorLoading]) := by
  refine ⟨?_, ?_, ?_, ?_, ?_⟩
  · simp [fetchAndConvert, hn, hs]
  · intro hv
    simp [fetchAndConvert, hn, hs, hv]
  · simp [fetchAndConvert, hn, hs, catchFail]
  · simp [fetchAndConvert, hn, hs, catchFail]
  · simp [fetchAndConvert, hn, hs, validMessages, catchFail]

theorem fetchAndConvert_polling_failure_modes_witness :
    truthy (some ("p")) = true ∧ truthy (some ("s")) = true ∧
    fetchAndConvert JSValue (fun l => l) (some ("p")) (some ("s")) true
        (FetchResult.response false 500 ("Internal Server Error")
          (Except.error JsError.other))
        (initialAutoState JSValue) = (initialAutoState JSValue, []) :=
  ⟨by decide, by decide,
    (fetchAndConvert_polling_failure_modes JSValue (fun l => l) (some ("p"))
      (some ("s")) 500 ("Internal Server Error") (Except.error JsError.other)
      JSValue.null JsError.other (initialAutoState JSValue)
      (by decide) (by decide)).1⟩

/-- C4 counterexample: a polling fetch of a body holding one guard-failing
message drops it (the stored messages are the conversion of the empty list),
yet the complete console output of that fetch is the single polling line —
no warning is logged for the dropped message. -/
theorem polling_drop_without_warning :
    isTimestampedSDKMessage invalidMsgEx = false ∧
    fetchAndConvert JSValue (fun l => l) (some ("p")) (some ("s")) true
        (FetchResult.response true 200 ("OK") (Except.ok bodyInvalidEx))
        (initialAutoState JSValue) =
      ({ state := { messages := [], loading := false, error := none,
                    sessionId := some (JSValue.str ("s1")) },
         lastMessageCount := 1 },
       [LogEvent.pollingDetected 1]) :=
  ⟨rfl, rfl⟩

/-- C4 (amended): in both loaders every guard-failing message of a valid body
is dropped before conversion and the guard-satisfying ones are kept in their
original order (the converted list is the conversion of the order-preserving
filter); a warning is logged per dropped message in
`useHistoryLoader.loadHistory`, while `fetchAndConvert` of
`useAutoHistoryLoader` — on its initial load and on every polling fetch —
drops invalid messages silently. -/
theorem conversion_filter_and_warnings (α : Type)
    (convert : List JSValue → List α) (name sid : String)
    (oname osid : Option String) (status : Nat) (statusText : String)
    (b : JSValue) (msgs : List JSValue) (prev : HistoryLoaderState α)
    (prevAuto : AutoState α) (hn : name ≠ "") (hs : sid ≠ "")
    (hon : truthy oname = true) (hos : truthy osid = true)
    (hv : validMessages b = Except.ok (some msgs)) :
    (loadHistory α convert name sid
        (FetchResult.response true status statusText (Except.ok b)) prev).1.messages =
      convert (msgs.filter isTimestampedSDKMessage) ∧
    (loadHistory α convert name sid
        (FetchResult.response true status statusText (Except.ok b)) prev).2 =
      (msgs.filter (fun m => !isTimestampedSDKMessage m)).map LogEvent.warnSkipped ∧
    (fetchAndConvert α convert oname osid false
        (FetchResult.response true status statusText (Except.ok b)) prevAuto).1.state.messages =
      convert (msgs.filter isTimestampedSDKMessage) ∧
    (fetchAndConvert α convert oname osid false
        (FetchResult.response true status statusText (Except.ok b)) prevAuto).2 = [] ∧
    (prevAuto.lastMessageCount < msgs.length →
      (fetchAndConvert α convert oname osid true
          (FetchResult.response true status statusText (Except.ok b)) prevAuto).1.state.messages =
        convert (msgs.filter isTimestampedSDKMessage) ∧
      (fetchAndConvert α convert oname osid true
          (FetchResult.response true status statusText (Except.ok b)) prevAuto).2 =
        [LogEvent.pollingDetected (msgs.length - prevAuto.lastMessageCount)]) := by
  refine ⟨?_, ?_, ?_, ?_, ?_⟩
  · simp [loadHistory, hn, hs, hv, convertLoopWithWarn_fst]
  · simp [loadHistory, hn, hs, hv, convertLoopWithWarn_snd]
  · simp [fetchAndConvert, hon, hos, hv]
  · simp [fetchAndConvert, hon, hos, hv]
  · intro hlt
    have hle : ¬ msgs.length ≤ prevAuto.lastMessageCount := by omega
    constructor
    · simp [fetchAndConvert, hon, hos, hv, hle]
    · simp [fetchAndConvert, hon, hos, hv, hle]

theorem conversion_filter_and_warnings_witness :
    (("p" : String) ≠ "") ∧ (("s" : String) ≠ "") ∧
    validMessages bodyInvalidEx = Except.ok (some [invalidMsgEx]) ∧
    (loadHistory JSValue (fun l => l) ("p") ("s")
        (FetchResult.response true 200 ("OK") (Except.ok bodyInvalidEx))
        (initialState JSValue)).2 = [LogEvent.warnSkipped invalidMsgEx] := by
  refine ⟨by decide, by decide, rfl, ?_⟩
  have hmain :=
    (conversion_filter_and_warnings JSValue (fun l => l) ("p") ("s")
      (some ("p")) (some ("s")) 200 ("OK") bodyInvalidEx [invalidMsgEx]
      (initialState JSValue) (initialAutoState JSValue) (by decide) (by decide)
      (by decide) (by decide) rfl).2.1
  exact hmain.trans rfl

/-- C1: for a polling fetch (`isPolling = true`), when the fetched
conversation is structurally valid and its message count does not exceed the
recorded last count, the whole hook state (messages, loading, error,
sessionId, and the count itself) is left unchanged and nothing is logged;
and whenever a polling fetch changes the stored messages, the fetch
succeeded with a count strictly above the recorded one and the stored
messages are the conversion of the guard-filtered fetched messages. -/
theorem fetchAndConvert_polling_count_gate (α : Type)
    (convert : List JSValue → List α) (name sid : Option String)
    (outcome : FetchResult) (prev : AutoState α) :
    (∀ msgs, fetchedMessages outcome = some msgs →
      msgs.length ≤ prev.lastMessageCount →
      fetchAndConvert α convert name sid true outcome prev = (prev, [])) ∧
    ((fetchAndConvert α convert name sid true outcome prev).1.state.messages ≠
        prev.state.messages →
      ∃ msgs, fetchedMessages outcome = some msgs ∧
        prev.lastMessageCount < msgs.length ∧
        (fetchAndConvert α convert name sid true outcome prev).1.state.messages =
          convert (msgs.filter isTimestampedSDKMessage)) := by
  by_cases hg : (!truthy name || !truthy sid) = true
  · constructor
    · intro msgs _ _
      simp [fetchAndConvert, hg]
    · intro hne
      exact absurd (by simp [fetchAndConvert, hg]) hne
  · have hg' : (!truthy name || !truthy sid) = false := by simpa using hg
    cases outcome with
    | rejected e =>
      refine ⟨fun msgs hm _ => by simp [fetchedMessages] at hm, fun hne => ?_⟩
      exact absurd (by simp [fetchAndConvert, hg', catchFail]) hne
    | response ok status statusText body =>
      cases ok with
      | false =>
        refine ⟨fun msgs hm _ => by simp [fetchedMessages] at hm, fun hne => ?_⟩
        exact absurd (by simp [fetchAndConvert, hg']) hne
      | true =>
        cases body with
        | error e =>
          refine ⟨fun msgs hm _ => by simp [fetchedMessages] at hm, fun hne => ?_⟩
          exact absurd (by simp [fetchAndConvert, hg', catchFail]) hne
        | ok b =>
          rcases hvb : validMessages b with e0 | mm
          · refine ⟨fun msgs hm _ => by simp [fetchedMessages, hvb] at hm,
              fun hne => ?_⟩
            exact absurd (by simp [fetchAndConvert, hg', hvb, catchFail]) hne
          rcases mm with _ | msgs0
          · refine ⟨fun msgs hm _ => by simp [fetchedMessages, hvb] at hm,
              fun hne => ?_⟩
            exact absurd (by simp [fetchAndConvert, hg', hvb]) hne
          by_cases hle : msgs0.length ≤ prev.lastMessageCount
          · refine ⟨fun msgs hm hle2 => ?_, fun hne => ?_⟩
            · simp [fetchAndConvert, hg', hvb, hle]
            · exact absurd (by simp [fetchAndConvert, hg', hvb, hle]) hne
          · refine ⟨fun msgs hm hle2 => ?_, fun hne => ?_⟩
            · simp [fetchedMessages, hvb] at hm
              subst hm
              omega
            · refine ⟨msgs0, by simp [fetchedMessages, hvb], by omega, ?_⟩
              simp [fetchAndConvert, hg', hvb, hle]

/-- A recorded-count state equal to the fetched count of `bodyOneMsgEx`. -/
def prevOneEx : AutoState JSValue :=
  { state := initialState JSValue, lastMessageCount := 1 }

theorem fetchAndConvert_polling_count_gate_witness :
    fetchedMessages (FetchResult.response true 200 ("OK") (Except.ok bodyOneMsgEx)) =
      some [validMsgEx] ∧
    [validMsgEx].length ≤ prevOneEx.lastMessageCount ∧
    fetchAndConvert JSValue (fun l => l) (some ("p")) (some ("s")) true
        (FetchResult.response true 200 ("OK") (Except.ok bodyOneMsgEx)) prevOneEx =
      (prevOneEx, []) :=
  ⟨rfl, by decide,
    (fetchAndConvert_polling_count_gate JSValue (fun l => l) (some ("p"))
      (some ("s")) (FetchResult.response true 200 ("OK") (Except.ok bodyOneMsgEx))
      prevOneEx).1 [validMsgEx] rfl (by decide)⟩
